import Mathlib

/-!
Shallow embedding of the authentication-method validator and the content-generator
factory of dedalus-labs/wingman: the function `validateAuthMethod` from the CLI auth
module and the functions `createContentGeneratorConfig` / `createContentGenerator`
together with the `AuthType` enum and `ContentGeneratorConfig` type from the core
`contentGenerator.ts` module, plus `DEFAULT_DEDALUS_MODEL` from `config/models.ts`.

The process environment is modelled as a snapshot `String → Option String` taken
after `loadEnvironment()` has run (`none` = variable unset). JavaScript truthiness
of `process.env.X` is modelled by `truthy`. The source strict-equality comparisons
against `AuthType` members are modelled over `JSVal`, the type of JS runtime values
occurring in them (a string or `undefined`): the members `LOGIN_WITH_GOOGLE`,
`USE_GEMINI` and `USE_VERTEX_AI` referenced by the code are NOT declared in the
`AuthType` enum, so at JS runtime those property accesses evaluate to `undefined`.
-/

/-- JavaScript runtime value as it occurs in the strict-equality comparisons of this
code: either a string or `undefined`. -/
inductive JSVal where
  | undef : JSVal
  | str : String → JSVal
  deriving DecidableEq, Repr

/-- Views a possibly-undefined string (`string | undefined`) as the JS value it denotes. -/
def jsval : Option String → JSVal
  | none => JSVal.undef
  | some s => JSVal.str s

/-- Renders a possibly-undefined string the way JS template-literal interpolation does. -/
def jsDisplay : Option String → String
  | none => "undefined"
  | some s => s

/-- Process environment snapshot: variable name to value, `none` when unset. -/
abbrev Env := String → Option String

/-- JS truthiness of `process.env.X` (a `string | undefined` value): `undefined` and
the empty string are falsy, every other string is truthy. -/
def truthy : Option String → Bool
  | none => false
  | some s => s ≠ ""

/-- Models `process.env.X || undefined`: a falsy value (unset or empty) becomes
`undefined`, a truthy value is kept. -/
def orUndefined (v : Option String) : Option String :=
  if truthy v then v else none

/-- Constant from `config/models.ts`. -/
def DEFAULT_DEDALUS_MODEL : String := "dedalus-2.5-pro"

namespace AuthType

/-- Member `LOGIN_WITH_DEDALUS = 'oauth-personal'` of the `AuthType` enum. -/
def LOGIN_WITH_DEDALUS : JSVal := JSVal.str "oauth-personal"

/-- Member `USE_DEDALUS = 'dedalus-api-key'` of the `AuthType` enum. -/
def USE_DEDALUS : JSVal := JSVal.str "dedalus-api-key"

/-- Member `USE_DEDALUS_CLOUD = 'dedalus-cloud'` of the `AuthType` enum. -/
def USE_DEDALUS_CLOUD : JSVal := JSVal.str "dedalus-cloud"

/-- Member `CLOUD_SHELL = 'cloud-shell'` of the `AuthType` enum. -/
def CLOUD_SHELL : JSVal := JSVal.str "cloud-shell"

/-- Referenced by `validateAuthMethod` but NOT declared in the `AuthType` enum; at JS
runtime the property access evaluates to `undefined`. -/
def LOGIN_WITH_GOOGLE : JSVal := JSVal.undef

/-- Referenced by `createContentGenerator` but NOT declared in the `AuthType` enum; at
JS runtime the property access evaluates to `undefined`. -/
def USE_GEMINI : JSVal := JSVal.undef

/-- Referenced by `createContentGenerator` but NOT declared in the `AuthType` enum; at
JS runtime the property access evaluates to `undefined`. -/
def USE_VERTEX_AI : JSVal := JSVal.undef

end AuthType

/-- Error string returned by `validateAuthMethod` in the `USE_DEDALUS` branch. -/
def DEDALUS_API_KEY_MISSING_MESSAGE : String :=
  "DEDALUS_API_KEY environment variable not found. Add that to your environment and try again (no reload needed if using .env)!"

/-- Error string returned by `validateAuthMethod` in the `USE_DEDALUS_CLOUD` branch,
built by the source as a concatenation of four lines. -/
def DEDALUS_CLOUD_CONFIG_MESSAGE : String :=
  "When using Dedalus Cloud, you must specify either:\n" ++
  "• DEDALUS_CLOUD_PROJECT and DEDALUS_CLOUD_LOCATION environment variables.\n" ++
  "• DEDALUS_API_KEY environment variable (if using express mode).\n" ++
  "Update your environment and try again (no reload needed if using .env)!"

/-- Embedding of `validateAuthMethod (authMethod: string): string | null` from the CLI
auth module. `env` is the environment snapshot after `loadEnvironment()`; the returned
`none` is the source `null` (valid), `some s` the error string `s`. The comparisons of
the first branch are the source `authMethod === AuthType.LOGIN_WITH_GOOGLE ||
authMethod === AuthType.CLOUD_SHELL`. -/
def validateAuthMethod (env : Env) (authMethod : String) : Option String :=
  if JSVal.str authMethod = AuthType.LOGIN_WITH_GOOGLE ∨
      JSVal.str authMethod = AuthType.CLOUD_SHELL then
    none
  else if JSVal.str authMethod = AuthType.USE_DEDALUS then
    if !truthy (env "DEDALUS_API_KEY") then
      some DEDALUS_API_KEY_MISSING_MESSAGE
    else
      none
  else if JSVal.str authMethod = AuthType.USE_DEDALUS_CLOUD then
    let hasVertexProjectLocationConfig :=
      truthy (env "DEDALUS_CLOUD_PROJECT") && truthy (env "DEDALUS_CLOUD_LOCATION")
    let hasDedalusApiKey := truthy (env "DEDALUS_API_KEY")
    if !hasVertexProjectLocationConfig && !hasDedalusApiKey then
      some DEDALUS_CLOUD_CONFIG_MESSAGE
    else
      none
  else
    some "Invalid auth method selected."

/-- The `ContentGeneratorConfig` record type from `contentGenerator.ts`; the optional
fields `apiKey`, `vertexai` and `authType` are `none` when absent or `undefined`. -/
structure ContentGeneratorConfig where
  model : String
  apiKey : Option String := none
  vertexai : Option Bool := none
  authType : Option String := none
  deriving DecidableEq, Repr

/-- Embedding of `createContentGeneratorConfig(config, authType)`. `configModel` is the
result of `config.getModel()` (`none` when unset) and `authType` the possibly-undefined
auth mode. The `USE_DEDALUS` branch additionally fires an asynchronous
`getEffectiveModel` check whose result only reaches the optional fallback-handler
callback, never the returned config, so it does not appear here. -/
def createContentGeneratorConfig (env : Env) (configModel : Option String)
    (authType : Option String) : ContentGeneratorConfig :=
  let dedalusApiKey := orUndefined (env "DEDALUS_API_KEY")
  let dedalusApiKey2 := orUndefined (env "DEDALUS_API_KEY")
  let dedalusCloudProject := orUndefined (env "DEDALUS_CLOUD_PROJECT")
  let dedalusCloudLocation := orUndefined (env "DEDALUS_CLOUD_LOCATION")
  let effectiveModel :=
    if truthy configModel then configModel.getD DEFAULT_DEDALUS_MODEL
    else DEFAULT_DEDALUS_MODEL
  let contentGeneratorConfig : ContentGeneratorConfig :=
    { model := effectiveModel, authType := authType }
  if jsval authType = AuthType.LOGIN_WITH_DEDALUS ∨
      jsval authType = AuthType.CLOUD_SHELL then
    contentGeneratorConfig
  else if jsval authType = AuthType.USE_DEDALUS ∧ truthy dedalusApiKey then
    { contentGeneratorConfig with apiKey := dedalusApiKey, vertexai := some false }
  else if jsval authType = AuthType.USE_DEDALUS_CLOUD ∧
      (truthy dedalusApiKey2 ∨ (truthy dedalusCloudProject ∧ truthy dedalusCloudLocation)) then
    { contentGeneratorConfig with apiKey := dedalusApiKey2, vertexai := some true }
  else
    contentGeneratorConfig

/-- Result of `createContentGenerator`: either the delegation to
`createCodeAssistContentGenerator` (recording the auth type passed to it) or the
`models` sub-interface of a `GoogleGenAI` client (recording the `apiKey` and
`vertexai` constructor arguments). The `httpOptions` header object carries only
telemetry strings and is passed through unchanged on both paths. -/
inductive ContentGenerator where
  | codeAssist : Option String → ContentGenerator
  | googleGenAIModels : Option String → Option Bool → ContentGenerator
  deriving DecidableEq, Repr

/-- Embedding of `createContentGenerator(config, gcConfig, sessionId?)`. A thrown
error is `Except.error` carrying the message. The comparisons of the second branch
are the source `config.authType === AuthType.USE_GEMINI || config.authType ===
AuthType.USE_VERTEX_AI`, and the `GoogleGenAI` client receives
`apiKey: config.apiKey === '' ? undefined : config.apiKey` and `vertexai:
config.vertexai`. -/
def createContentGenerator (config : ContentGeneratorConfig) :
    Except String ContentGenerator :=
  if jsval config.authType = AuthType.LOGIN_WITH_DEDALUS ∨
      jsval config.authType = AuthType.CLOUD_SHELL then
    Except.ok (ContentGenerator.codeAssist config.authType)
  else if jsval config.authType = AuthType.USE_GEMINI ∨
      jsval config.authType = AuthType.USE_VERTEX_AI then
    Except.ok (ContentGenerator.googleGenAIModels
      (if config.apiKey = some "" then none else config.apiKey)
      config.vertexai)
  else
    Except.error
      ("Error creating contentGenerator: Unsupported authType: " ++
        jsDisplay config.authType)

/-- Relates two possibly-absent environment values that differ at most by the variable
being set to the empty string on one side and unset on the other. -/
def eqModEmpty (a b : Option String) : Prop :=
  a = b ∨ (a = some "" ∧ b = none) ∨ (a = none ∧ b = some "")

/-- Truthiness of an unset variable is false. -/
theorem truthy_none : truthy none = false := rfl

/-- Truthiness is unchanged by the `x || undefined` normalisation. -/
theorem truthy_orUndefined (v : Option String) : truthy (orUndefined v) = truthy v := by
  cases v with
  | none => rfl
  | some s => by_cases h : s = "" <;> simp [orUndefined, truthy, h]

/-- A falsy environment value normalises to `undefined`. -/
theorem orUndefined_of_not_truthy {v : Option String} (h : truthy v = false) :
    orUndefined v = none := by
  simp [orUndefined, h]

/-- The `x || undefined` normalisation never produces the empty string. -/
theorem orUndefined_ne_empty (v : Option String) : orUndefined v ≠ some "" := by
  cases v with
  | none => simp [orUndefined, truthy]
  | some s => by_cases h : s = "" <;> simp [orUndefined, truthy, h]

/-- Truthiness respects the empty-equals-unset relation. -/
theorem truthy_congr_eqModEmpty {a b : Option String} (h : eqModEmpty a b) :
    truthy a = truthy b := by
  rcases h with h | ⟨h1, h2⟩ | ⟨h1, h2⟩ <;> subst_vars <;> simp [truthy]

/-- The `x || undefined` normalisation respects the empty-equals-unset relation. -/
theorem orUndefined_congr_eqModEmpty {a b : Option String} (h : eqModEmpty a b) :
    orUndefined a = orUndefined b := by
  rcases h with h | ⟨h1, h2⟩ | ⟨h1, h2⟩ <;> subst_vars <;> simp [orUndefined, truthy]

/-- Claim C1: the claim says `createContentGenerator` on the two direct-API modes
(`USE_DEDALUS` and `USE_DEDALUS_CLOUD`) does not throw and returns the vendor SDK
client. The code instead compares `config.authType` against `AuthType.USE_GEMINI` and
`AuthType.USE_VERTEX_AI`, neither of which is a member of the `AuthType` enum, so both
direct-API modes fall through to the throw branch: this theorem evaluates the code at
the failing inputs and shows it throws for both modes. -/
theorem createContentGenerator_throws_on_direct_api_modes :
    createContentGenerator
        { model := "dedalus-2.5-pro", apiKey := some "k", vertexai := some false,
          authType := some "dedalus-api-key" }
      = Except.error "Error creating contentGenerator: Unsupported authType: dedalus-api-key"
    ∧ createContentGenerator
        { model := "dedalus-2.5-pro", apiKey := some "k", vertexai := some true,
          authType := some "dedalus-cloud" }
      = Except.error "Error creating contentGenerator: Unsupported authType: dedalus-cloud" :=
  ⟨rfl, rfl⟩

/-- Claim C2: the claim says `validateAuthMethod` returns `null` for both
`LOGIN_WITH_DEDALUS` and `CLOUD_SHELL` in every environment. The code compares
`authMethod` against `AuthType.LOGIN_WITH_GOOGLE`, which is not a member of the
`AuthType` enum, so the login mode falls to the default branch: this theorem evaluates
the code and shows `LOGIN_WITH_DEDALUS` is rejected with the fixed error while the
`CLOUD_SHELL` half of the claim does hold. -/
theorem validateAuthMethod_rejects_login_with_dedalus (env : Env) :
    validateAuthMethod env "oauth-personal" = some "Invalid auth method selected."
    ∧ validateAuthMethod env "cloud-shell" = none :=
  ⟨rfl, rfl⟩

/-- Claim C3: the claim says `createContentGenerator` throws, naming the value, for
every `authType` outside the four enum members, including `undefined`. Because
`AuthType.USE_GEMINI` is not a member of the enum, the comparison
`config.authType === AuthType.USE_GEMINI` holds when `authType` is `undefined`, so the
factory silently builds the vendor SDK client instead of throwing: this theorem
evaluates the code at the failing input. -/
theorem createContentGenerator_undefined_authType_not_thrown :
    createContentGenerator
        { model := "dedalus-2.5-pro", apiKey := some "k", vertexai := some false,
          authType := none }
      = Except.ok (ContentGenerator.googleGenAIModels (some "k") (some false)) :=
  rfl

/-- Claim C4: for the `USE_DEDALUS_CLOUD` mode and every environment,
`validateAuthMethod` returns `null` iff the API key is set non-empty or both the cloud
project and cloud location are set non-empty; otherwise it returns the fixed multi-line
error string, which enumerates both satisfying configurations. -/
theorem validateAuthMethod_use_dedalus_cloud_spec (env : Env) :
    (validateAuthMethod env "dedalus-cloud" = none
      ↔ (truthy (env "DEDALUS_API_KEY") = true
          ∨ (truthy (env "DEDALUS_CLOUD_PROJECT") = true
              ∧ truthy (env "DEDALUS_CLOUD_LOCATION") = true)))
    ∧ (validateAuthMethod env "dedalus-cloud" = none
        ∨ validateAuthMethod env "dedalus-cloud" = some DEDALUS_CLOUD_CONFIG_MESSAGE)
    ∧ (∃ p q : String, DEDALUS_CLOUD_CONFIG_MESSAGE = p ++ "\n" ++ q)
    ∧ (∃ p q : String, DEDALUS_CLOUD_CONFIG_MESSAGE
        = p ++ "DEDALUS_CLOUD_PROJECT and DEDALUS_CLOUD_LOCATION" ++ q)
    ∧ (∃ p q : String, DEDALUS_CLOUD_CONFIG_MESSAGE = p ++ "DEDALUS_API_KEY" ++ q) := by
  refine ⟨?_, ?_,
    ⟨"When using Dedalus Cloud, you must specify either:",
     "• DEDALUS_CLOUD_PROJECT and DEDALUS_CLOUD_LOCATION environment variables.\n• DEDALUS_API_KEY environment variable (if using express mode).\nUpdate your environment and try again (no reload needed if using .env)!",
     by rfl⟩,
    ⟨"When using Dedalus Cloud, you must specify either:\n• ",
     " environment variables.\n• DEDALUS_API_KEY environment variable (if using express mode).\nUpdate your environment and try again (no reload needed if using .env)!",
     by rfl⟩,
    ⟨"When using Dedalus Cloud, you must specify either:\n• DEDALUS_CLOUD_PROJECT and DEDALUS_CLOUD_LOCATION environment variables.\n• ",
     " environment variable (if using express mode).\nUpdate your environment and try again (no reload needed if using .env)!",
     by rfl⟩⟩
  · unfold validateAuthMethod
    cases hk : truthy (env "DEDALUS_API_KEY") <;>
      cases hp : truthy (env "DEDALUS_CLOUD_PROJECT") <;>
        cases hl : truthy (env "DEDALUS_CLOUD_LOCATION") <;>
          simp [AuthType.LOGIN_WITH_GOOGLE, AuthType.CLOUD_SHELL, AuthType.USE_DEDALUS,
            AuthType.USE_DEDALUS_CLOUD, hk, hp, hl]
  · unfold validateAuthMethod
    cases hk : truthy (env "DEDALUS_API_KEY") <;>
      cases hp : truthy (env "DEDALUS_CLOUD_PROJECT") <;>
        cases hl : truthy (env "DEDALUS_CLOUD_LOCATION") <;>
          simp [AuthType.LOGIN_WITH_GOOGLE, AuthType.CLOUD_SHELL, AuthType.USE_DEDALUS,
            AuthType.USE_DEDALUS_CLOUD, hk, hp, hl]

/-- Claim C5: for the `USE_DEDALUS` mode and every environment, `validateAuthMethod`
returns `null` iff `DEDALUS_API_KEY` is set to a non-empty string; otherwise it returns
the fixed error string, which contains the name of the missing variable. -/
theorem validateAuthMethod_use_dedalus_spec (env : Env) :
    (validateAuthMethod env "dedalus-api-key" = none
      ↔ truthy (env "DEDALUS_API_KEY") = true)
    ∧ (validateAuthMethod env "dedalus-api-key" = none
        ∨ validateAuthMethod env "dedalus-api-key" = some DEDALUS_API_KEY_MISSING_MESSAGE)
    ∧ (∃ p q : String, DEDALUS_API_KEY_MISSING_MESSAGE = p ++ "DEDALUS_API_KEY" ++ q) := by
  refine ⟨?_, ?_,
    ⟨"", " environment variable not found. Add that to your environment and try again (no reload needed if using .env)!", by rfl⟩⟩
  · unfold validateAuthMethod
    cases hk : truthy (env "DEDALUS_API_KEY") <;>
      simp [AuthType.LOGIN_WITH_GOOGLE, AuthType.CLOUD_SHELL, AuthType.USE_DEDALUS,
        AuthType.USE_DEDALUS_CLOUD, hk]
  · unfold validateAuthMethod
    cases hk : truthy (env "DEDALUS_API_KEY") <;>
      simp [AuthType.LOGIN_WITH_GOOGLE, AuthType.CLOUD_SHELL, AuthType.USE_DEDALUS,
        AuthType.USE_DEDALUS_CLOUD, hk]

/-- Claim C6: for every string outside the four enumerated `AuthType` values and every
environment, `validateAuthMethod` returns the fixed string
"Invalid auth method selected.", never `null`. -/
theorem validateAuthMethod_unrecognized_fixed_error (env : Env) (s : String)
    ( _h1 : s ≠ "oauth-personal") (h2 : s ≠ "dedalus-api-key")
    (h3 : s ≠ "dedalus-cloud") (h4 : s ≠ "cloud-shell") :
    validateAuthMethod env s = some "Invalid auth method selected." := by
  unfold validateAuthMethod
  simp [AuthType.LOGIN_WITH_GOOGLE, AuthType.CLOUD_SHELL, AuthType.USE_DEDALUS,
    AuthType.USE_DEDALUS_CLOUD, h2, h3, h4]

/-- Witness for claim C6 at the concrete unrecognized value "bogus-mode". -/
theorem validateAuthMethod_unrecognized_fixed_error_witness :
    validateAuthMethod (fun _ => none) "bogus-mode" = some "Invalid auth method selected." :=
  validateAuthMethod_unrecognized_fixed_error (fun _ => none) "bogus-mode"
    (by decide) (by decide) (by decide) (by decide)

/-- Claim C7: with `DEDALUS_CLOUD_PROJECT` and `DEDALUS_CLOUD_LOCATION` set,
`DEDALUS_API_KEY` unset and no app-config model, the `USE_DEDALUS_CLOUD` mode
validates to `null` and the built config is exactly
`{model := "dedalus-2.5-pro", apiKey := undefined, vertexai := true,
authType := USE_DEDALUS_CLOUD}`. -/
theorem scenario_cloud_project_config (env : Env)
    (hp : truthy (env "DEDALUS_CLOUD_PROJECT") = true)
    (hl : truthy (env "DEDALUS_CLOUD_LOCATION") = true)
    (hk : truthy (env "DEDALUS_API_KEY") = false) :
    validateAuthMethod env "dedalus-cloud" = none
    ∧ createContentGeneratorConfig env none (some "dedalus-cloud")
      = { model := "dedalus-2.5-pro", apiKey := none, vertexai := some true,
          authType := some "dedalus-cloud" } := by
  constructor
  · unfold validateAuthMethod
    simp [AuthType.LOGIN_WITH_GOOGLE, AuthType.CLOUD_SHELL, AuthType.USE_DEDALUS,
      AuthType.USE_DEDALUS_CLOUD, hp, hl, hk]
  · unfold createContentGeneratorConfig
    simp [jsval, AuthType.LOGIN_WITH_DEDALUS, AuthType.CLOUD_SHELL, AuthType.USE_DEDALUS,
      AuthType.USE_DEDALUS_CLOUD, truthy_orUndefined, orUndefined_of_not_truthy hk,
      truthy_none, hp, hl, hk, DEFAULT_DEDALUS_MODEL]

/-- Witness for claim C7 at a concrete environment with project and location set and
the API key unset. -/
theorem scenario_cloud_project_config_witness :
    validateAuthMethod
        (fun k => if k = "DEDALUS_CLOUD_PROJECT" then some "my-project"
          else if k = "DEDALUS_CLOUD_LOCATION" then some "us-central1" else none)
        "dedalus-cloud" = none
    ∧ createContentGeneratorConfig
        (fun k => if k = "DEDALUS_CLOUD_PROJECT" then some "my-project"
          else if k = "DEDALUS_CLOUD_LOCATION" then some "us-central1" else none)
        none (some "dedalus-cloud")
      = { model := "dedalus-2.5-pro", apiKey := none, vertexai := some true,
          authType := some "dedalus-cloud" } :=
  scenario_cloud_project_config
    (fun k => if k = "DEDALUS_CLOUD_PROJECT" then some "my-project"
      else if k = "DEDALUS_CLOUD_LOCATION" then some "us-central1" else none)
    (by decide) (by decide) (by decide)

/-- Claim C8: for every environment, app-config model and auth type, the `model` field
of the built config equals the app-config model when set and non-empty, and the fixed
default "dedalus-2.5-pro" otherwise. -/
theorem createContentGeneratorConfig_model_spec (env : Env) (configModel : Option String)
    (authType : Option String) :
    (createContentGeneratorConfig env configModel authType).model
      = match configModel with
        | some m => if m = "" then DEFAULT_DEDALUS_MODEL else m
        | none => DEFAULT_DEDALUS_MODEL := by
  unfold createContentGeneratorConfig
  simp only [apply_ite ContentGeneratorConfig.model, ite_self]
  cases configModel with
  | none => simp [truthy]
  | some m => by_cases hm : m = "" <;> simp [truthy, hm]

/-- Claim C9: `createContentGeneratorConfig` depends only on the snapshot of the three
environment variables it reads, the app-config model and the auth type: two calls whose
environments agree on `DEDALUS_API_KEY`, `DEDALUS_CLOUD_PROJECT` and
`DEDALUS_CLOUD_LOCATION`, with the same model and auth type, return field-equal
configs. -/
theorem createContentGeneratorConfig_deterministic (env1 env2 : Env)
    (configModel : Option String) (authType : Option String)
    (hk : env1 "DEDALUS_API_KEY" = env2 "DEDALUS_API_KEY")
    (hp : env1 "DEDALUS_CLOUD_PROJECT" = env2 "DEDALUS_CLOUD_PROJECT")
    (hl : env1 "DEDALUS_CLOUD_LOCATION" = env2 "DEDALUS_CLOUD_LOCATION") :
    createContentGeneratorConfig env1 configModel authType
      = createContentGeneratorConfig env2 configModel authType := by
  simp only [createContentGeneratorConfig, hk, hp, hl]

/-- Witness for claim C9 on two concrete environments that differ only in a variable
the builder does not read. -/
theorem createContentGeneratorConfig_deterministic_witness :
    createContentGeneratorConfig
        (fun k => if k = "HOME" then some "/home/user" else none)
        (some "dedalus-2.5-flash") (some "dedalus-api-key")
      = createContentGeneratorConfig (fun _ => none)
        (some "dedalus-2.5-flash") (some "dedalus-api-key") :=
  createContentGeneratorConfig_deterministic
    (fun k => if k = "HOME" then some "/home/user" else none) (fun _ => none)
    (some "dedalus-2.5-flash") (some "dedalus-api-key")
    (by decide) (by decide) (by decide)

/-- Claim C10: in both `validateAuthMethod` and `createContentGeneratorConfig`, an
environment variable set to the empty string behaves exactly like that variable being
unset, for every mode and app-config model; and the `apiKey` field of the built config
is never the empty string. -/
theorem empty_env_equals_unset (env1 env2 : Env) (authMethod : String)
    (configModel : Option String) (authType : Option String)
    (hk : eqModEmpty (env1 "DEDALUS_API_KEY") (env2 "DEDALUS_API_KEY"))
    (hp : eqModEmpty (env1 "DEDALUS_CLOUD_PROJECT") (env2 "DEDALUS_CLOUD_PROJECT"))
    (hl : eqModEmpty (env1 "DEDALUS_CLOUD_LOCATION") (env2 "DEDALUS_CLOUD_LOCATION")) :
    validateAuthMethod env1 authMethod = validateAuthMethod env2 authMethod
    ∧ createContentGeneratorConfig env1 configModel authType
        = createContentGeneratorConfig env2 configModel authType
    ∧ (createContentGeneratorConfig env1 configModel authType).apiKey ≠ some "" := by
  have tk := truthy_congr_eqModEmpty hk
  have tp := truthy_congr_eqModEmpty hp
  have tl := truthy_congr_eqModEmpty hl
  have ok := orUndefined_congr_eqModEmpty hk
  have op := orUndefined_congr_eqModEmpty hp
  have ol := orUndefined_congr_eqModEmpty hl
  refine ⟨?_, ?_, ?_⟩
  · simp only [validateAuthMethod, tk, tp, tl]
  · simp only [createContentGeneratorConfig, ok, op, ol]
  · unfold createContentGeneratorConfig
    simp only [apply_ite ContentGeneratorConfig.apiKey]
    repeat' split
    all_goals simp [orUndefined_ne_empty]

/-- Witness for claim C10 on a concrete pair of environments where `DEDALUS_API_KEY`
is the empty string on one side and unset on the other. -/
theorem empty_env_equals_unset_witness :
    validateAuthMethod (fun k => if k = "DEDALUS_API_KEY" then some "" else none)
        "dedalus-api-key"
      = validateAuthMethod (fun _ => none) "dedalus-api-key"
    ∧ createContentGeneratorConfig (fun k => if k = "DEDALUS_API_KEY" then some "" else none)
        none (some "dedalus-api-key")
      = createContentGeneratorConfig (fun _ => none) none (some "dedalus-api-key")
    ∧ (createContentGeneratorConfig (fun k => if k = "DEDALUS_API_KEY" then some "" else none)
        none (some "dedalus-api-key")).apiKey ≠ some "" :=
  empty_env_equals_unset (fun k => if k = "DEDALUS_API_KEY" then some "" else none)
    (fun _ => none) "dedalus-api-key" none (some "dedalus-api-key")
    (by simp [eqModEmpty]) (by simp [eqModEmpty]) (by simp [eqModEmpty])
